import Mathlib

/-!
Verification development for the dbackup backup orchestration engine.

Shallow embedding of the Rust sources:
  - `src/retention.rs`  (duration parser, local and S3 retention cleanup)
  - `src/config.rs`     (storage resolution)
  - `src/postgres.rs`   (backup job executor and the two dump pipelines)
  - `src/storage.rs`    (storage backends)

Strings are embedded as `List Char` where character-level processing
matters (the duration parser) and as `String` elsewhere.  Machine
integers are embedded as `Nat`/`Int`; the `u64` bound of Rust's
`str::parse::<u64>` and the wrapping `as u64` cast are kept explicit.
External effects (process spawning, filesystem calls, S3 network calls)
are embedded as explicit outcome parameters, and the state they touch
(files deleted, directories removed) is returned explicitly.
-/

namespace DBackup

/-! ## Character helpers

Rust's `char::is_numeric` restricted to the ASCII digits.  The non-ASCII
numeric characters accepted by Rust's predicate are all rejected by
`str::parse::<u64>` afterwards, so on the `Option`-level result the two
classifications agree; the embedding uses the ASCII fragment. -/

def is_numeric (c : Char) : Bool :=
  decide (48 ≤ c.toNat ∧ c.toNat ≤ 57)

/-- Rust `char::is_whitespace`: the Unicode `White_Space` property, as
used by `str::trim`.  Code points: U+0009–U+000D, U+0020, U+0085,
U+00A0, U+1680, U+2000–U+200A, U+2028, U+2029, U+202F, U+205F,
U+3000. -/
def is_whitespace (c : Char) : Bool :=
  decide (c.toNat = 32 ∨ (9 ≤ c.toNat ∧ c.toNat ≤ 13) ∨ c.toNat = 133 ∨
    c.toNat = 160 ∨ c.toNat = 5760 ∨ (8192 ≤ c.toNat ∧ c.toNat ≤ 8202) ∨
    c.toNat = 8232 ∨ c.toNat = 8233 ∨ c.toNat = 8239 ∨ c.toNat = 8287 ∨
    c.toNat = 12288)

/-- Rust `char::to_lowercase` on its ASCII fragment: maps A–Z to a–z and
fixes every other character. -/
def to_lowercase_char (c : Char) : Char :=
  if 65 ≤ c.toNat ∧ c.toNat ≤ 90 then Char.ofNat (c.toNat + 32) else c

/-- Rust `str::trim`: strip whitespace from both ends. -/
def trim (cs : List Char) : List Char :=
  ((cs.dropWhile is_whitespace).reverse.dropWhile is_whitespace).reverse

/-- Rust `str::to_lowercase` (ASCII fragment). -/
def to_lowercase (cs : List Char) : List Char :=
  cs.map to_lowercase_char

/-- Numeric value of a digit string, most significant digit first.
This is the value computed by `str::parse::<u64>` on all-digit input. -/
def digitsVal (cs : List Char) : Nat :=
  cs.foldl (fun a c => a * 10 + (c.toNat - 48)) 0

/-- Rust `num_str.parse::<u64>()` on the strings that reach it in
`parse_duration` (maximal runs of numeric characters): succeeds exactly
on a nonempty all-digit string whose value fits in a `u64`. -/
def parse_u64 (cs : List Char) : Option Nat :=
  if cs ≠ [] ∧ cs.all is_numeric ∧ digitsVal cs < 2 ^ 64 then
    some (digitsVal cs)
  else
    none

/-! ## Duration parser — `parse_duration`, src/retention.rs lines 10–42 -/

/-- The unit multiplier table from the `match unit` expression in
`parse_duration` (src/retention.rs lines 27–39): seconds per unit, with
a month fixed at 30 days and a year at 365 days. -/
def unitSeconds (unit : List Char) : Option Nat :=
  if unit = "s".data ∨ unit = "sec".data ∨ unit = "second".data ∨ unit = "seconds".data then
    some 1
  else if unit = "m".data ∨ unit = "min".data ∨ unit = "minute".data ∨ unit = "minutes".data then
    some 60
  else if unit = "h".data ∨ unit = "hour".data ∨ unit = "hours".data then
    some 3600
  else if unit = "d".data ∨ unit = "day".data ∨ unit = "days".data then
    some 86400
  else if unit = "w".data ∨ unit = "week".data ∨ unit = "weeks".data then
    some 604800
  else if unit = "mon".data ∨ unit = "month".data ∨ unit = "months".data then
    some 2592000
  else if unit = "y".data ∨ unit = "year".data ∨ unit = "years".data then
    some 31536000
  else
    none

/-- `parse_duration` (src/retention.rs lines 10–42).  Trims and
lowercases the input, rejects the empty string, splits at the first
non-numeric character (rejecting an all-numeric string, where Rust's
`find` returns `None`), parses the numeric prefix as a `u64` and scales
it by the unit.  The scaling `num * unit_seconds` is a `u64`
multiplication, so it is taken modulo 2^64 (the wrapping semantics of
the release build; the overflow-checked debug profile would panic
instead).  Returns the total number of seconds, `none` on any of the
`bail!`/`Err` paths. -/
def parse_duration (s : List Char) : Option Nat :=
  let cs := to_lowercase (trim s)
  if cs = [] then
    none
  else if cs.all is_numeric then
    none
  else
    let numStr := cs.takeWhile is_numeric
    let unit := cs.dropWhile is_numeric
    match parse_u64 numStr with
    | none => none
    | some n => (unitSeconds unit).map (fun k => n * k % 2 ^ 64)

example : parse_duration "30s".data = some 30 := by decide
example : parse_duration "2w".data = some 1209600 := by decide
example : parse_duration "1mon".data = some 2592000 := by decide
example : parse_duration "1y".data = some 31536000 := by decide
example : parse_duration "".data = none := by decide
example : parse_duration "1".data = none := by decide
example : parse_duration "abc".data = none := by decide
example : parse_duration "1x".data = none := by decide
example : parse_duration " 5M ".data = some 300 := by decide

/-! ## Configuration model — src/config.rs

`PathBuf` fields are embedded as `String`.  The `HashMap<String,
StorageConfig>` of shared storage templates is embedded as an
association list with `List.lookup` (keys are unique in a map, so the
first match is the match).  The Rust field `prefix` of `StorageConfig`
and `StorageReference` is named `key_prefix` here because of a Lean
naming restriction; it is the S3 key prefix. -/

structure StorageConfig where
  driver : String
  path : Option String
  filename_prefix : Option String
  bucket : Option String
  region : Option String
  key_prefix : Option String
  endpoint : Option String
  access_key_id : Option String
  secret_access_key : Option String
deriving DecidableEq, Repr

/-- `StorageReference` (src/config.rs lines 78–85): a named template
reference with optional overrides ( `key_prefix` embeds the Rust field
`prefix`). -/
structure StorageReference where
  ref : String
  key_prefix : Option String
  filename_prefix : Option String
deriving DecidableEq, Repr

/-- `StorageSelection` (src/config.rs lines 87–92). -/
inductive StorageSelection where
  | Reference (r : StorageReference)
  | Inline (s : StorageConfig)
deriving DecidableEq, Repr

/-- `BackupMode` (src/config.rs lines 28–33). -/
inductive BackupMode where
  | Basic
  | Parallel
deriving DecidableEq, Repr

/-- `ConnectionConfig` (src/config.rs lines 62–71). -/
structure ConnectionConfig where
  uri : Option String
  host : String
  port : Nat
  username : String
  password : String
  database : String
deriving DecidableEq, Repr

/-- `ScheduleConfig` (src/config.rs lines 73–76). -/
structure ScheduleConfig where
  cron : String
deriving DecidableEq, Repr

/-- `BackupConfig` (src/config.rs lines 41–56). -/
structure BackupConfig where
  name : String
  driver : String
  connection : ConnectionConfig
  schedule : Option ScheduleConfig
  storage : Option StorageSelection
  mode : BackupMode
  parallel_jobs : Nat
  binary_path : Option String
deriving DecidableEq, Repr

/-- `BinarySettings` (src/config.rs lines 20–26). -/
structure BinarySettings where
  pg_dump : Option String
  mysqldump : Option String
deriving DecidableEq, Repr

/-- `Settings` (src/config.rs lines 12–18); `storages` is the shared
storage template map. -/
structure Settings where
  binary : Option BinarySettings
  storages : Option (List (String × StorageConfig))
deriving DecidableEq, Repr

/-- `Config` (src/config.rs lines 5–10). -/
structure Config where
  settings : Option Settings
  backups : List BackupConfig
deriving DecidableEq, Repr

/-- The three `anyhow::bail!` sites of `Config::get_storage_for_backup`
(src/config.rs lines 145, 148, 152), named as in the specification. -/
inductive ConfigError where
  | StorageNotFound (name : String)
  | NoTemplatesDefined (name : String)
  | MissingStorageConfig (backupName : String)
deriving DecidableEq, Repr

/-- `Config::get_storage_for_backup` (src/config.rs lines 126–155).
Inline selections are returned directly; references are looked up in
`settings.storages` (the Rust `self.settings.as_ref().and_then(|s|
s.storages.as_ref())` is the `Option.bind`), the found template is
cloned and the reference's overrides replace its `prefix`
(here `key_prefix`) and `filename_prefix` fields. -/
def get_storage_for_backup (cfg : Config) (backup : BackupConfig) :
    Except ConfigError StorageConfig :=
  match backup.storage with
  | some (StorageSelection.Inline storage) => Except.ok storage
  | some (StorageSelection.Reference storageRef) =>
    match cfg.settings.bind (fun s => s.storages) with
    | some storages =>
      match storages.lookup storageRef.ref with
      | some tpl =>
        let storage1 :=
          match StorageReference.key_prefix storageRef with
          | some p => { tpl with key_prefix := some p }
          | none => tpl
        let storage2 :=
          match StorageReference.filename_prefix storageRef with
          | some fp => { storage1 with filename_prefix := some fp }
          | none => storage1
        Except.ok storage2
      | none => Except.error (ConfigError.StorageNotFound storageRef.ref)
    | none => Except.error (ConfigError.NoTemplatesDefined storageRef.ref)
  | none => Except.error (ConfigError.MissingStorageConfig backup.name)

/-! ## Dump pipelines and executor — src/postgres.rs

The external effects of `PostgresBackup::execute`, `dump_basic` and
`dump_parallel` (process spawning, the gzip encoder, filesystem calls)
are embedded as explicit boolean/`Except` outcome parameters, one per
fallible call site, in source order.  The filesystem state the claims
are about is returned explicitly: whether a file was placed at the
final delivery location, whether the scratch (temp) directory removal
was invoked, and whether the intermediate directory removal was
invoked. -/

/-- A local wall-clock instant, the value behind `chrono::Local::now()`. -/
structure LocalDateTime where
  year : Nat
  month : Nat
  day : Nat
  hour : Nat
  minute : Nat
  second : Nat
deriving DecidableEq, Repr

/-- Zero-pad to two digits (chrono `%m`, `%d`, `%H`, `%M`, `%S`). -/
def pad2 (n : Nat) : String :=
  if n < 10 then "0" ++ toString n else toString n

/-- Zero-pad to four digits (chrono `%Y` for the years it renders with
four digits). -/
def pad4 (n : Nat) : String :=
  if n < 10 then "000" ++ toString n
  else if n < 100 then "00" ++ toString n
  else if n < 1000 then "0" ++ toString n
  else toString n

/-- `Local::now().format("%Y%m%d_%H%M%S")` (src/postgres.rs line 27). -/
def formatTimestamp (t : LocalDateTime) : String :=
  pad4 t.year ++ pad2 t.month ++ pad2 t.day ++ "_" ++
    pad2 t.hour ++ pad2 t.minute ++ pad2 t.second

/-- `storage_config.driver.to_lowercase() == "local"` as used throughout
src/postgres.rs (via the character-level `to_lowercase` embedding). -/
def StorageConfig.isLocal (sc : StorageConfig) : Bool :=
  to_lowercase sc.driver.data == "local".data

/-- `self.config.binary_path ... unwrap_or_else(|| Path::new("pg_dump"))`
(src/postgres.rs lines 88–90 and 183–185). -/
def pg_dump_path (binary_path : Option String) : String :=
  binary_path.getD "pg_dump"

/-- The argv built for `pg_dump` in basic mode (src/postgres.rs lines
93–108): connection parameters followed by the custom-format flags.
The password is not among them; it goes into the `PGPASSWORD`
environment variable (line 96), modelled by `producerEnv`. -/
def buildArgsBasic (conn : ConnectionConfig) : List String :=
  ["--host", conn.host,
   "--port", toString conn.port,
   "--username", conn.username,
   "--dbname", conn.database,
   "-Fc", "--compress=9", "--no-owner", "--verbose"]

/-- The argv built for `pg_dump` in parallel mode (src/postgres.rs lines
188–204): connection parameters followed by the directory-format flags,
the parallelism degree and the output directory. -/
def buildArgsParallel (conn : ConnectionConfig) (parallel_jobs : Nat)
    (backup_tmp_dir : String) : List String :=
  ["--host", conn.host,
   "--port", toString conn.port,
   "--username", conn.username,
   "--dbname", conn.database,
   "-Fd", "-j", toString parallel_jobs, "-f", backup_tmp_dir,
   "--no-owner", "--verbose"]

/-- `cmd.env("PGPASSWORD", &conn.password)` (src/postgres.rs lines 96
and 191): the only out-of-band credential channel. -/
def producerEnv (conn : ConnectionConfig) : List (String × String) :=
  [("PGPASSWORD", conn.password)]

/-- Error sites of the two dump pipelines, one constructor per
`context(...)?` / `bail!` site in src/postgres.rs. -/
inductive DumpError where
  | SpawnFailed
  | StdoutCaptureFailed
  | CreateFileFailed
  | CopyFailed
  | CompressFailed
  | WaitFailed
  | ProducerFailed
  | LocalPathMissing
  | RenameFailed
  | CreateDirFailed
  | ArchiveFailed
  | RemoveDirFailed
deriving DecidableEq, Repr

/-- Outcomes of the external calls made by `dump_basic`, in source
order: spawn (line 115), stdout capture (118), output-file creation
(124), the stream copy (132), the gzip encoder write/finish (136–139),
waiting on the child (142), and the child's exit status (144), plus the
final rename for local storage (160). -/
structure BasicEnv where
  spawnOk : Bool
  stdoutOk : Bool
  createFileOk : Bool
  copyOk : Bool
  encoderOk : Bool
  waitOk : Bool
  exitSuccess : Bool
  renameOk : Bool
deriving DecidableEq, Repr

/-- `PostgresBackup::dump_basic` (src/postgres.rs lines 76–169).
Returns the Rust result — `(artifact_path, filename)` or the error —
paired with whether a file was placed at the final delivery location
(the rename of line 160, which only happens for local storage after
the producer succeeded). -/
def dump_basic (sc : StorageConfig) (temp_dir timestamp : String)
    (env : BasicEnv) : Except DumpError (String × String) × Bool :=
  let filename := (StorageConfig.filename_prefix sc).getD "backup_" ++ timestamp ++ ".dump.gz"
  if !env.spawnOk then (Except.error DumpError.SpawnFailed, false)
  else if !env.stdoutOk then (Except.error DumpError.StdoutCaptureFailed, false)
  else if !env.createFileOk then (Except.error DumpError.CreateFileFailed, false)
  else if !env.copyOk then (Except.error DumpError.CopyFailed, false)
  else if !env.encoderOk then (Except.error DumpError.CompressFailed, false)
  else if !env.waitOk then (Except.error DumpError.WaitFailed, false)
  else if !env.exitSuccess then (Except.error DumpError.ProducerFailed, false)
  else if sc.isLocal then
    match sc.path with
    | none => (Except.error DumpError.LocalPathMissing, false)
    | some p =>
      if !env.renameOk then (Except.error DumpError.RenameFailed, false)
      else (Except.ok (p ++ "/" ++ filename, filename), true)
  else
    (Except.ok (temp_dir ++ "/" ++ filename, filename), false)

/-- Outcomes of the external calls made by `dump_parallel`, in source
order: creation of the intermediate directory (line 177), spawn (214),
waiting on the child (217), the child's exit status (219), the
tar+gzip archiving (238), the removal of the intermediate directory
(241), and the final rename for local storage (249). -/
structure ParallelEnv where
  createBackupDirOk : Bool
  spawnOk : Bool
  waitOk : Bool
  exitSuccess : Bool
  compressOk : Bool
  removeIntermediateOk : Bool
  renameOk : Bool
deriving DecidableEq, Repr

/-- `PostgresBackup::dump_parallel` (src/postgres.rs lines 171–258).
Returns the Rust result, whether a file was placed at the final
delivery location, and whether removal of the intermediate
directory-format dump directory was invoked.  On producer failure the
removal is invoked best-effort (`let _ =`, line 229) before the
`bail!`; after a successful archive the removal's own failure
propagates as the function's error (`.context(...)?`, lines 241–242);
if the archive step fails (line 238, `?`), the removal is never
reached. -/
def dump_parallel (sc : StorageConfig) (temp_dir timestamp : String)
    (env : ParallelEnv) :
    Except DumpError (String × String) × Bool × Bool :=
  let basename := (StorageConfig.filename_prefix sc).getD "backup_" ++ timestamp
  if !env.createBackupDirOk then (Except.error DumpError.CreateDirFailed, false, false)
  else if !env.spawnOk then (Except.error DumpError.SpawnFailed, false, false)
  else if !env.waitOk then (Except.error DumpError.WaitFailed, false, false)
  else if !env.exitSuccess then (Except.error DumpError.ProducerFailed, false, true)
  else
    let tar_filename := basename ++ ".dir.tar.gz"
    let tar_path := temp_dir ++ "/" ++ tar_filename
    if !env.compressOk then (Except.error DumpError.ArchiveFailed, false, false)
    else if !env.removeIntermediateOk then (Except.error DumpError.RemoveDirFailed, false, true)
    else if sc.isLocal then
      match sc.path with
      | none => (Except.error DumpError.LocalPathMissing, false, true)
      | some p =>
        if !env.renameOk then (Except.error DumpError.RenameFailed, false, true)
        else (Except.ok (p ++ "/" ++ tar_filename, tar_filename), true, true)
    else
      (Except.ok (tar_path, tar_filename), false, true)

/-- Error sites of `PostgresBackup::execute`, one constructor per
fallible step: storage backend construction (line 30), the local path
check and directory creation (lines 33–38), the temp directory
creation (lines 41–43), the dump pipeline (lines 46–58) and the
delivery upload (line 66). -/
inductive ExecError where
  | StorageBackendFailed
  | LocalPathMissing
  | CreateOutputDirFailed
  | CreateTempDirFailed
  | DumpFailed (e : DumpError)
  | StoreFailed
deriving DecidableEq, Repr

/-- Lines 60–73 of `PostgresBackup::execute`: delivery of the dump
result and the scratch-directory cleanup of line 70.  A dump error
propagates with `?` (no cleanup); for local storage the artifact is
already in place; otherwise the upload of line 66 propagates its error
with `?` (no cleanup); on every success path the cleanup of line 70 is
invoked.  Components: Rust result, file at final delivery location,
scratch removal invoked. -/
def deliverPhase (sc : StorageConfig) (storeResult : Except Unit String)
    (dres : Except DumpError (String × String) × Bool) :
    Except ExecError String × Bool × Bool :=
  match dres with
  | (Except.error e, written) => (Except.error (ExecError.DumpFailed e), written, false)
  | (Except.ok (p, _f), written) =>
    if sc.isLocal then
      (Except.ok p, written, true)
    else
      match storeResult with
      | Except.error _ => (Except.error ExecError.StoreFailed, written, false)
      | Except.ok loc => (Except.ok loc, true, true)

/-- `PostgresBackup::execute` (src/postgres.rs lines 24–74).  Besides
the Rust result, the second component records whether a file exists at
the final delivery location, and the third whether the
`remove_dir_all(&temp_dir)` of line 70 — the scratch directory cleanup
— was invoked.  Every earlier failure propagates with `?` before line
70 is reached. -/
def execute (sc : StorageConfig) (mode : BackupMode) (now : LocalDateTime)
    (temp_dir : String)
    (storageCreateOk createOutputDirOk createTempDirOk : Bool)
    (benv : BasicEnv) (penv : ParallelEnv)
    (storeResult : Except Unit String) :
    Except ExecError String × Bool × Bool :=
  let timestamp := formatTimestamp now
  if !storageCreateOk then (Except.error ExecError.StorageBackendFailed, false, false)
  else if sc.isLocal ∧ sc.path = none then
    (Except.error ExecError.LocalPathMissing, false, false)
  else if sc.isLocal ∧ !createOutputDirOk then
    (Except.error ExecError.CreateOutputDirFailed, false, false)
  else if !createTempDirOk then
    (Except.error ExecError.CreateTempDirFailed, false, false)
  else
    let dres : Except DumpError (String × String) × Bool :=
      match mode with
      | BackupMode.Basic => dump_basic sc temp_dir timestamp benv
      | BackupMode.Parallel =>
        match dump_parallel sc temp_dir timestamp penv with
        | (r, written, _) => (r, written)
    deliverPhase sc storeResult dres

/-! ## Retention cleanup — src/retention.rs lines 45–93 and
src/storage.rs lines 132–199

Timestamps are embedded as `Int` seconds (an abstract instant); the
`SystemTime` cutoff `now - retention_duration` is integer subtraction.
A directory entry carries what the pass reads of it: whether it is a
directory, its modification time when `metadata()`/`modified()`
succeed, and whether `remove_file` would succeed on it.  The outcome
records the Rust return value — which is `Result<()>`, so `Option Unit`
here — together with the filesystem effect (one deletion flag per
entry) and the count that is logged at the end of the pass. -/

structure FileEntry where
  isDir : Bool
  modified : Option Int
  removeOk : Bool
deriving DecidableEq, Repr

/-- Outcome of a retention pass: `result` is the Rust function's return
value (`Result<()>`), `deleted` flags which entries were removed from
disk, and `loggedCount` is the `deleted_count` variable that is logged
(never returned). -/
structure RetentionOutcome where
  result : Option Unit
  deleted : List Bool
  loggedCount : Nat
deriving DecidableEq, Repr

/-- The per-entry loop of `apply_local_retention` (src/retention.rs
lines 62–89): skip directories, skip entries whose metadata or
modification time cannot be read, delete entries strictly older than
the cutoff, count a deletion only when `remove_file` succeeded, and
continue past a failed deletion. -/
def retentionLoop (cutoff : Int) : List FileEntry → List Bool × Nat
  | [] => ([], 0)
  | e :: rest =>
    let (ds, n) := retentionLoop cutoff rest
    if e.isDir then (false :: ds, n)
    else
      match e.modified with
      | some t =>
        if t < cutoff then
          if e.removeOk then (true :: ds, n + 1)
          else (false :: ds, n)
        else (false :: ds, n)
      | none => (false :: ds, n)

/-- `apply_local_retention` (src/retention.rs lines 45–93).  Parses the
retention string (`Err` on failure), returns `Ok(())` untouched when
the base directory does not exist, and otherwise runs the per-entry
loop against the cutoff `now - retention_duration`.  Returns `Ok(())`
— the count is only logged. -/
def apply_local_retention (pathExists : Bool) (retention_days : List Char)
    (now : Int) (entries : List FileEntry) : RetentionOutcome :=
  match parse_duration retention_days with
  | none => ⟨none, entries.map (fun _ => false), 0⟩
  | some secs =>
    if !pathExists then ⟨some (), entries.map (fun _ => false), 0⟩
    else
      let cutoff := now - (secs : Int)
      let (ds, n) := retentionLoop cutoff entries
      ⟨some (), ds, n⟩

/-- What `S3Storage::cleanup_old_backups` reads of one listed object:
its key and last-modified timestamp when present in the listing, and
whether `delete_object` would succeed on it. -/
structure S3Object where
  key : Option String
  lastModified : Option Int
  deleteOk : Bool
deriving DecidableEq, Repr

/-- The per-object loop of `cleanup_old_backups` (src/storage.rs lines
160–187): objects without a last-modified timestamp are skipped; the
timestamp goes through the `secs() as u64` cast (wrapping, hence the
`emod 2 ^ 64`); strictly older objects with a key are deleted, a
deletion is counted only when it succeeded, and a failed deletion is
skipped. -/
def s3ObjLoop (cutoff : Int) : List S3Object → List Bool × Nat
  | [] => ([], 0)
  | o :: rest =>
    let (ds, n) := s3ObjLoop cutoff rest
    match o.lastModified with
    | some t =>
      let objTime := Int.emod t (2 ^ 64)
      if objTime < cutoff then
        match o.key with
        | some _ => if o.deleteOk then (true :: ds, n + 1) else (false :: ds, n)
        | none => (false :: ds, n)
      else (false :: ds, n)
    | none => (false :: ds, n)

/-- The pagination loop of `cleanup_old_backups` (src/storage.rs lines
143–195): pages of the listing are processed in order, accumulating
the deletions and the count. -/
def s3PagesLoop (cutoff : Int) : List (List S3Object) → List Bool × Nat
  | [] => ([], 0)
  | page :: rest =>
    let (ds, n) := s3ObjLoop cutoff page
    let (ds2, n2) := s3PagesLoop cutoff rest
    (ds ++ ds2, n + n2)

/-- `S3Storage::cleanup_old_backups` (src/storage.rs lines 132–199),
with the listing supplied as pages.  Returns `Ok(())` — the count is
only logged (line 197). -/
def cleanup_old_backups (retentionSecs : Nat) (now : Int)
    (pages : List (List S3Object)) : RetentionOutcome :=
  let cutoff := now - (retentionSecs : Int)
  let (ds, n) := s3PagesLoop cutoff pages
  ⟨some (), ds, n⟩

/-! ## Helper lemmas about the duration parser -/

theorem dropWhile_eq_self_of_not {p : Char → Bool} :
    ∀ cs : List Char, (∀ c ∈ cs, p c = false) → cs.dropWhile p = cs := by
  intro cs h
  cases cs with
  | nil => rfl
  | cons c t =>
    have hc : p c = false := h c (List.mem_cons_self c t)
    simp [List.dropWhile, hc]

theorem trim_eq_self {cs : List Char}
    (h : ∀ c ∈ cs, is_whitespace c = false) : trim cs = cs := by
  unfold trim
  rw [dropWhile_eq_self_of_not cs h]
  rw [dropWhile_eq_self_of_not cs.reverse (by intro c hc; exact h c (List.mem_reverse.mp hc))]
  exact List.reverse_reverse cs

theorem to_lowercase_eq_self {cs : List Char}
    (h : ∀ c ∈ cs, to_lowercase_char c = c) : to_lowercase cs = cs := by
  unfold to_lowercase
  induction cs with
  | nil => rfl
  | cons c t ih =>
    simp only [List.map_cons]
    rw [h c (List.mem_cons_self c t),
      ih (by intro x hx; exact h x (List.mem_cons_of_mem c hx))]

theorem numeric_not_ws {c : Char} (h : is_numeric c = true) :
    is_whitespace c = false := by
  simp only [is_numeric, decide_eq_true_eq] at h
  simp only [is_whitespace, decide_eq_false_iff_not]
  omega

theorem numeric_lower_fix {c : Char} (h : is_numeric c = true) :
    to_lowercase_char c = c := by
  simp only [is_numeric, decide_eq_true_eq] at h
  unfold to_lowercase_char
  rw [if_neg]
  omega

theorem takeWhile_append_of_all {p : Char → Bool} :
    ∀ ds u : List Char, (∀ c ∈ ds, p c = true) →
      (∀ c ∈ u.take 1, p c = false) →
      (ds ++ u).takeWhile p = ds ∧ (ds ++ u).dropWhile p = u := by
  intro ds u hds hu
  induction ds with
  | nil =>
    cases u with
    | nil => exact ⟨rfl, rfl⟩
    | cons c t =>
      have hc : p c = false := hu c (by simp [List.take])
      simp [List.takeWhile, List.dropWhile, hc]
  | cons d dt ih =>
    have hd : p d = true := hds d (List.mem_cons_self d dt)
    have ih2 := ih (by intro x hx; exact hds x (List.mem_cons_of_mem d hx))
    rw [List.cons_append, List.takeWhile_cons, List.dropWhile_cons, hd]
    simp only [if_true]
    exact ⟨by rw [ih2.1], by rw [ih2.2]⟩

/-- Normalisation is the identity on a digit string followed by a
whitespace-free, lowercase-fixed suffix. -/
theorem normalize_digits_append {ds u : List Char}
    (hds : ∀ c ∈ ds, is_numeric c = true)
    (huw : ∀ c ∈ u, is_whitespace c = false)
    (hul : ∀ c ∈ u, to_lowercase_char c = c) :
    to_lowercase (trim (ds ++ u)) = ds ++ u := by
  rw [trim_eq_self (by
    intro c hc
    rcases List.mem_append.mp hc with h | h
    · exact numeric_not_ws (hds c h)
    · exact huw c h)]
  exact to_lowercase_eq_self (by
    intro c hc
    rcases List.mem_append.mp hc with h | h
    · exact numeric_lower_fix (hds c h)
    · exact hul c h)

/-- Core evaluation lemma: on a nonempty digit string within the `u64`
range followed by a nonempty non-numeric, whitespace-free, lowercase
suffix, `parse_duration` splits exactly there and scales by the unit
table. -/
theorem parse_duration_split {ds u : List Char}
    (hne : ds ≠ []) (hds : ∀ c ∈ ds, is_numeric c = true)
    (hval : digitsVal ds < 2 ^ 64)
    (hune : u ≠ [])
    (huh : ∀ c ∈ u.take 1, is_numeric c = false)
    (huw : ∀ c ∈ u, is_whitespace c = false)
    (hul : ∀ c ∈ u, to_lowercase_char c = c) :
    parse_duration (ds ++ u) =
      (unitSeconds u).map (fun k => digitsVal ds * k % 2 ^ 64) := by
  unfold parse_duration
  rw [normalize_digits_append hds huw hul]
  have hnonempty : ¬(ds ++ u = []) := by
    intro h
    exact hne (List.append_eq_nil.mp h).1
  have hnotall : ¬((ds ++ u).all is_numeric = true) := by
    intro h
    cases u with
    | nil => exact hune rfl
    | cons c t =>
      have hc : is_numeric c = false := huh c (by simp [List.take])
      have : is_numeric c = true :=
        (List.all_eq_true.mp h) c (List.mem_append.mpr (Or.inr (List.mem_cons_self c t)))
      rw [hc] at this
      exact Bool.false_ne_true this
  have hsplit := takeWhile_append_of_all ds u hds huh
  simp only [hnonempty, if_false, hnotall, hsplit.1, hsplit.2]
  have hparse : parse_u64 ds = some (digitsVal ds) := by
    unfold parse_u64
    rw [if_pos ⟨hne, List.all_eq_true.mpr hds, hval⟩]
  rw [hparse]
  cases unitSeconds u <;> rfl

theorem parse_duration_all_numeric {ds : List Char}
    (hne : ds ≠ []) (hds : ∀ c ∈ ds, is_numeric c = true) :
    parse_duration ds = none := by
  unfold parse_duration
  rw [show to_lowercase (trim ds) = ds from by
    rw [trim_eq_self (by intro c hc; exact numeric_not_ws (hds c hc))]
    exact to_lowercase_eq_self (by intro c hc; exact numeric_lower_fix (hds c hc))]
  simp only [hne, if_false, List.all_eq_true.mpr hds, if_true]

theorem parse_duration_no_number {u : List Char}
    (hne : u ≠ [])
    (hfix : ∀ c ∈ u, is_whitespace c = false ∧ to_lowercase_char c = c)
    (hhead : ∀ c ∈ u.take 1, is_numeric c = false) :
    parse_duration u = none := by
  unfold parse_duration
  rw [show to_lowercase (trim u) = u from by
    rw [trim_eq_self (by intro c hc; exact (hfix c hc).1)]
    exact to_lowercase_eq_self (by intro c hc; exact (hfix c hc).2)]
  have hsplit := takeWhile_append_of_all [] u (by intro c hc; cases hc) hhead
  simp only [List.nil_append] at hsplit
  have hnotall : ¬(u.all is_numeric = true) := by
    intro h
    cases u with
    | nil => exact hne rfl
    | cons c t =>
      have hc : is_numeric c = false := hhead c (by simp [List.take])
      have : is_numeric c = true := (List.all_eq_true.mp h) c (List.mem_cons_self c t)
      rw [hc] at this
      exact Bool.false_ne_true this
  simp only [hne, if_false, hnotall, hsplit.1, hsplit.2]
  rfl

/-- The unit set of the claim, with the number of seconds each unit
stands for: a month is 30 days and a year 365 days. -/
def unitTable : List (List Char × Nat) :=
  [("s".data, 1), ("m".data, 60), ("h".data, 3600), ("d".data, 86400),
   ("w".data, 604800), ("mon".data, 2592000), ("y".data, 31536000)]

theorem parse_duration_unit_table (ds u : List Char) (k : Nat)
    (hne : ds ≠ []) (hds : ∀ c ∈ ds, is_numeric c = true)
    (hval : digitsVal ds < 2 ^ 64) (hmem : (u, k) ∈ unitTable) :
    parse_duration (ds ++ u) = some (digitsVal ds * k % 2 ^ 64) := by
  simp only [unitTable, List.mem_cons, List.not_mem_nil, or_false,
    Prod.mk.injEq] at hmem
  rcases hmem with ⟨hu, hk⟩ | ⟨hu, hk⟩ | ⟨hu, hk⟩ | ⟨hu, hk⟩ |
    ⟨hu, hk⟩ | ⟨hu, hk⟩ | ⟨hu, hk⟩ <;>
    (subst hu; subst hk;
     rw [parse_duration_split hne hds hval (by decide) (by decide)
       (by decide) (by decide)];
     rfl)

/-- Counterexample to C3.  The source computes `num * unit_seconds` in
`u64` (src/retention.rs lines 28–34), so the product wraps modulo 2^64
once it no longer fits: for `1000000000000000000y` (the number parses
as a `u64`) the parser returns the wrapped 18180652435553386496
seconds, not the claimed exact 1000000000000000000 * 31536000. -/
theorem duration_parser_overflow_cex :
    parse_duration "1000000000000000000y".data = some 18180652435553386496 ∧
    (18180652435553386496 : Nat) ≠ 1000000000000000000 * 31536000 := by
  exact ⟨by decide, by decide⟩

/-- C3 (amended).  For every duration string of the form
{number}{unit} with unit in {s,m,h,d,w,mon,y} and the number within
the `u64` range that `str::parse::<u64>` accepts, the parser scales by
the unit (a month counted as 30 days, a year as 365 days) with `u64`
multiplication, wrapping modulo 2^64; in particular it returns exactly
number * unit_seconds whenever that product fits in a `u64`.  For
every malformed string — empty, missing unit (all digits), missing
number (leading non-digit), unknown unit — it returns an error. -/
theorem duration_parser_spec :
    (∀ ds u k, ds ≠ [] → (∀ c ∈ ds, is_numeric c = true) →
      digitsVal ds < 2 ^ 64 → (u, k) ∈ unitTable →
      parse_duration (ds ++ u) = some (digitsVal ds * k % 2 ^ 64)) ∧
    (∀ ds u k, ds ≠ [] → (∀ c ∈ ds, is_numeric c = true) →
      digitsVal ds < 2 ^ 64 → (u, k) ∈ unitTable →
      digitsVal ds * k < 2 ^ 64 →
      parse_duration (ds ++ u) = some (digitsVal ds * k)) ∧
    parse_duration [] = none ∧
    (∀ ds, ds ≠ [] → (∀ c ∈ ds, is_numeric c = true) →
      parse_duration ds = none) ∧
    (∀ u, u ≠ [] →
      (∀ c ∈ u, is_whitespace c = false ∧ to_lowercase_char c = c) →
      (∀ c ∈ u.take 1, is_numeric c = false) →
      parse_duration u = none) ∧
    (∀ ds u, ds ≠ [] → (∀ c ∈ ds, is_numeric c = true) →
      digitsVal ds < 2 ^ 64 → u ≠ [] →
      (∀ c ∈ u.take 1, is_numeric c = false) →
      (∀ c ∈ u, is_whitespace c = false ∧ to_lowercase_char c = c) →
      unitSeconds u = none →
      parse_duration (ds ++ u) = none) := by
  refine ⟨?_, ?_, by decide, ?_, ?_, ?_⟩
  · intro ds u k hne hds hval hmem
    exact parse_duration_unit_table ds u k hne hds hval hmem
  · intro ds u k hne hds hval hmem hfit
    rw [parse_duration_unit_table ds u k hne hds hval hmem,
      Nat.mod_eq_of_lt hfit]
  · intro ds hne hds
    exact parse_duration_all_numeric hne hds
  · intro u hne hfix hhead
    exact parse_duration_no_number hne hfix hhead
  · intro ds u hne hds hval hune hhead hfix hunk
    rw [parse_duration_split hne hds hval hune hhead
      (by intro c hc; exact (hfix c hc).1) (by intro c hc; exact (hfix c hc).2)]
    rw [hunk]
    rfl

/-- Witness for C3 (amended) at concrete inputs. -/
theorem duration_parser_spec_witness :
    parse_duration ("30".data ++ "s".data) = some (digitsVal "30".data * 1) ∧
    parse_duration ("2".data ++ "mon".data) = some (digitsVal "2".data * 2592000) ∧
    parse_duration ("9999999999999".data ++ "y".data) =
      some (digitsVal "9999999999999".data * 31536000 % 2 ^ 64) ∧
    parse_duration "7".data = none ∧
    parse_duration "x".data = none ∧
    parse_duration ("1".data ++ "q".data) = none :=
  ⟨duration_parser_spec.2.1 "30".data "s".data 1 (by decide) (by decide)
      (by decide) (by decide) (by decide),
   duration_parser_spec.2.1 "2".data "mon".data 2592000 (by decide) (by decide)
      (by decide) (by decide) (by decide),
   duration_parser_spec.1 "9999999999999".data "y".data 31536000 (by decide)
      (by decide) (by decide) (by decide),
   duration_parser_spec.2.2.2.1 "7".data (by decide) (by decide),
   duration_parser_spec.2.2.2.2.1 "x".data (by decide) (by decide) (by decide),
   duration_parser_spec.2.2.2.2.2 "1".data "q".data (by decide) (by decide)
      (by decide) (by decide) (by decide) (by decide) (by decide)⟩

/-- C4.  Storage resolution returns an inline configuration directly;
for a reference it returns the named template with the reference's
`prefix` (here `key_prefix`) and `filename_prefix` overrides applied;
and it fails in exactly three cases: referenced template absent
(`StorageNotFound`), no templates declared at all
(`NoTemplatesDefined`), and no storage selection
(`MissingStorageConfig`).  The five cases are exhaustive over the
inputs. -/
theorem storage_resolution_cases :
    (∀ cfg b s, BackupConfig.storage b = some (StorageSelection.Inline s) →
      get_storage_for_backup cfg b = Except.ok s) ∧
    (∀ cfg b r ts tpl,
      BackupConfig.storage b = some (StorageSelection.Reference r) →
      (Config.settings cfg).bind (fun s => s.storages) = some ts →
      ts.lookup (StorageReference.ref r) = some tpl →
      get_storage_for_backup cfg b = Except.ok
        { tpl with
          key_prefix :=
            match StorageReference.key_prefix r with
            | some p => some p
            | none => StorageConfig.key_prefix tpl,
          filename_prefix :=
            match StorageReference.filename_prefix r with
            | some fp => some fp
            | none => StorageConfig.filename_prefix tpl }) ∧
    (∀ cfg b r ts,
      BackupConfig.storage b = some (StorageSelection.Reference r) →
      (Config.settings cfg).bind (fun s => s.storages) = some ts →
      ts.lookup (StorageReference.ref r) = none →
      get_storage_for_backup cfg b =
        Except.error (ConfigError.StorageNotFound (StorageReference.ref r))) ∧
    (∀ cfg b r,
      BackupConfig.storage b = some (StorageSelection.Reference r) →
      (Config.settings cfg).bind (fun s => s.storages) = none →
      get_storage_for_backup cfg b =
        Except.error (ConfigError.NoTemplatesDefined (StorageReference.ref r))) ∧
    (∀ cfg b, BackupConfig.storage b = none →
      get_storage_for_backup cfg b =
        Except.error (ConfigError.MissingStorageConfig (BackupConfig.name b))) := by
  refine ⟨?_, ?_, ?_, ?_, ?_⟩
  · intro cfg b s h
    simp only [get_storage_for_backup, h]
  · intro cfg b r ts tpl hstor hset hlook
    simp only [get_storage_for_backup, hstor, hset, hlook]
    cases hkp : StorageReference.key_prefix r <;>
      cases hfp : StorageReference.filename_prefix r <;>
      simp only [hkp, hfp]
  · intro cfg b r ts hstor hset hlook
    simp only [get_storage_for_backup, hstor, hset, hlook]
  · intro cfg b r hstor hset
    simp only [get_storage_for_backup, hstor, hset]
  · intro cfg b h
    simp only [get_storage_for_backup, h]

/-- Witness for C4 at concrete inputs. -/
theorem storage_resolution_cases_witness :
    get_storage_for_backup
      ⟨some ⟨none, some [("s3_main", ⟨"s3", none, some "t_", some "b", some "r", some "p/", none, none, none⟩)]⟩, []⟩
      ⟨"j", "postgresql", ⟨none, "h", 5432, "u", "pw", "db"⟩, none,
        some (StorageSelection.Reference ⟨"s3_main", none, some "x_"⟩),
        BackupMode.Basic, 2, none⟩ =
      Except.ok ⟨"s3", none, some "x_", some "b", some "r", some "p/", none, none, none⟩ :=
  storage_resolution_cases.2.1
    ⟨some ⟨none, some [("s3_main", ⟨"s3", none, some "t_", some "b", some "r", some "p/", none, none, none⟩)]⟩, []⟩
    ⟨"j", "postgresql", ⟨none, "h", 5432, "u", "pw", "db"⟩, none,
      some (StorageSelection.Reference ⟨"s3_main", none, some "x_"⟩),
      BackupMode.Basic, 2, none⟩
    ⟨"s3_main", none, some "x_"⟩
    [("s3_main", ⟨"s3", none, some "t_", some "b", some "r", some "p/", none, none, none⟩)]
    ⟨"s3", none, some "t_", some "b", some "r", some "p/", none, none, none⟩
    rfl rfl (by decide)

/-- C5.  Storage resolution is pure and deterministic — its result
depends only on the template map, the storage selection and the job
name, so resolving the same reference twice with the same templates
yields identical configurations — and frame-preserving: a resolved
reference equals the referenced template in every field except the
overridden `prefix` (here `key_prefix`) and/or `filename_prefix`. -/
theorem storage_resolution_pure_frame :
    (∀ cfg1 cfg2 b1 b2,
      (Config.settings cfg1).bind (fun s => s.storages) =
        (Config.settings cfg2).bind (fun s => s.storages) →
      BackupConfig.storage b1 = BackupConfig.storage b2 →
      BackupConfig.name b1 = BackupConfig.name b2 →
      get_storage_for_backup cfg1 b1 = get_storage_for_backup cfg2 b2) ∧
    (∀ cfg b r ts tpl res,
      BackupConfig.storage b = some (StorageSelection.Reference r) →
      (Config.settings cfg).bind (fun s => s.storages) = some ts →
      ts.lookup (StorageReference.ref r) = some tpl →
      get_storage_for_backup cfg b = Except.ok res →
      (StorageConfig.driver res = StorageConfig.driver tpl ∧
       StorageConfig.path res = StorageConfig.path tpl ∧
       StorageConfig.bucket res = StorageConfig.bucket tpl ∧
       StorageConfig.region res = StorageConfig.region tpl ∧
       StorageConfig.endpoint res = StorageConfig.endpoint tpl ∧
       StorageConfig.access_key_id res = StorageConfig.access_key_id tpl ∧
       StorageConfig.secret_access_key res = StorageConfig.secret_access_key tpl) ∧
      (StorageReference.key_prefix r = none →
        StorageConfig.key_prefix res = StorageConfig.key_prefix tpl) ∧
      (∀ p, StorageReference.key_prefix r = some p →
        StorageConfig.key_prefix res = some p) ∧
      (StorageReference.filename_prefix r = none →
        StorageConfig.filename_prefix res = StorageConfig.filename_prefix tpl) ∧
      (∀ fp, StorageReference.filename_prefix r = some fp →
        StorageConfig.filename_prefix res = some fp)) := by
  constructor
  · intro cfg1 cfg2 b1 b2 hset hstor hname
    unfold get_storage_for_backup
    rw [hstor, hname, hset]
  · intro cfg b r ts tpl res hstor hset hlook hres
    simp only [get_storage_for_backup, hstor, hset, hlook] at hres
    cases hkp : StorageReference.key_prefix r <;>
      cases hfp : StorageReference.filename_prefix r <;>
      simp only [hkp, hfp, Except.ok.injEq] at hres <;>
      subst hres <;>
      simp_all

/-- Witness for C5 at concrete inputs: the determinism conjunct applied
to two syntactically different configurations carrying the same
template map, and the frame conjunct applied to an override of the
filename prefix only. -/
theorem storage_resolution_pure_frame_witness :
    (get_storage_for_backup
      ⟨some ⟨none, some [("t", ⟨"local", some "/b", some "a_", none, none, none, none, none, none⟩)]⟩, []⟩
      ⟨"j", "postgresql", ⟨none, "h", 1, "u", "pw", "d"⟩, none,
        some (StorageSelection.Reference ⟨"t", none, none⟩), BackupMode.Basic, 2, none⟩ =
     get_storage_for_backup
      ⟨some ⟨some ⟨some "/usr/bin/pg_dump", none⟩, some [("t", ⟨"local", some "/b", some "a_", none, none, none, none, none, none⟩)]⟩,
        [⟨"other", "mysql", ⟨none, "h2", 2, "u2", "pw2", "d2"⟩, none, none, BackupMode.Parallel, 4, none⟩]⟩
      ⟨"j", "mysql", ⟨none, "h9", 9, "u9", "pw9", "d9"⟩, some ⟨"* * * * *"⟩,
        some (StorageSelection.Reference ⟨"t", none, none⟩), BackupMode.Parallel, 8, some "/x"⟩) ∧
    (StorageConfig.path
      (⟨"local", some "/b", some "a_", none, none, some "x_", none, none, none⟩ : StorageConfig) =
     StorageConfig.path
      (⟨"local", some "/b", some "a_", none, none, none, none, none, none⟩ : StorageConfig)) :=
  ⟨storage_resolution_pure_frame.1
    ⟨some ⟨none, some [("t", ⟨"local", some "/b", some "a_", none, none, none, none, none, none⟩)]⟩, []⟩
    ⟨some ⟨some ⟨some "/usr/bin/pg_dump", none⟩, some [("t", ⟨"local", some "/b", some "a_", none, none, none, none, none, none⟩)]⟩,
      [⟨"other", "mysql", ⟨none, "h2", 2, "u2", "pw2", "d2"⟩, none, none, BackupMode.Parallel, 4, none⟩]⟩
    ⟨"j", "postgresql", ⟨none, "h", 1, "u", "pw", "d"⟩, none,
      some (StorageSelection.Reference ⟨"t", none, none⟩), BackupMode.Basic, 2, none⟩
    ⟨"j", "mysql", ⟨none, "h9", 9, "u9", "pw9", "d9"⟩, some ⟨"* * * * *"⟩,
      some (StorageSelection.Reference ⟨"t", none, none⟩), BackupMode.Parallel, 8, some "/x"⟩
    rfl rfl rfl,
   ((storage_resolution_pure_frame.2
      ⟨some ⟨none, some [("t", ⟨"local", some "/b", some "a_", none, none, none, none, none, none⟩)]⟩, []⟩
      ⟨"j", "postgresql", ⟨none, "h", 1, "u", "pw", "d"⟩, none,
        some (StorageSelection.Reference ⟨"t", some "x_", none⟩), BackupMode.Basic, 2, none⟩
      ⟨"t", some "x_", none⟩
      [("t", ⟨"local", some "/b", some "a_", none, none, none, none, none, none⟩)]
      ⟨"local", some "/b", some "a_", none, none, none, none, none, none⟩
      ⟨"local", some "/b", some "a_", none, none, some "x_", none, none, none⟩
      rfl rfl rfl rfl).1).2.1⟩

/-! ## C1 — scratch directory cleanup in the executor -/

theorem deliverPhase_scratch_iff (sc : StorageConfig)
    (store : Except Unit String)
    (dres : Except DumpError (String × String) × Bool) :
    (deliverPhase sc store dres).2.2 = true ↔
      ∃ loc, (deliverPhase sc store dres).1 = Except.ok loc := by
  obtain ⟨r, w⟩ := dres
  cases r with
  | error e => simp [deliverPhase]
  | ok pf =>
    obtain ⟨p, f⟩ := pf
    by_cases hl : sc.isLocal = true
    · simp [deliverPhase, hl]
    · cases store with
      | error u => simp [deliverPhase, hl]
      | ok loc => simp [deliverPhase, hl]

theorem dump_basic_producer_failed (sc : StorageConfig) (td ts : String)
    (benv : BasicEnv) (h5 : benv.spawnOk = true) (h6 : benv.stdoutOk = true)
    (h7 : benv.createFileOk = true) (h8 : benv.copyOk = true)
    (h9 : benv.encoderOk = true) (h10 : benv.waitOk = true)
    (h11 : benv.exitSuccess = false) :
    dump_basic sc td ts benv = (Except.error DumpError.ProducerFailed, false) := by
  simp [dump_basic, h5, h6, h7, h8, h9, h10, h11]

theorem dump_parallel_producer_failed (sc : StorageConfig) (td ts : String)
    (penv : ParallelEnv) (h5 : penv.createBackupDirOk = true)
    (h6 : penv.spawnOk = true) (h7 : penv.waitOk = true)
    (h8 : penv.exitSuccess = false) :
    dump_parallel sc td ts penv =
      (Except.error DumpError.ProducerFailed, false, true) := by
  simp [dump_parallel, h5, h6, h7, h8]

/-- Counterexample to C1.  A run whose producer exits non-zero (all
other external calls succeeding, local storage correctly configured)
returns the producer error, and the scratch-directory removal of
src/postgres.rs line 70 is NOT invoked (third component `false`): the
`?` on the dump pipeline propagates the error before line 70, so the
scratch directory is left behind, contradicting the claimed
unconditional step 5. -/
theorem executor_cleanup_cex :
    execute ⟨"local", some "/var/backups", some "bk_", none, none, none, none, none, none⟩
      BackupMode.Basic ⟨2024, 1, 2, 3, 4, 5⟩ "/tmp/dbackup_x" true true true
      ⟨true, true, true, true, true, true, false, true⟩
      ⟨true, true, true, true, true, true, true⟩
      (Except.ok "unused") =
    (Except.error (ExecError.DumpFailed DumpError.ProducerFailed), false, false) := by
  rfl

/-- C1 (amended).  The scratch-directory removal of step 5 runs exactly
when the run succeeds: any dump-pipeline or delivery failure propagates
before the removal, leaving the scratch directory behind.  A run whose
producer exits non-zero (in either mode) fails with the producer
error, leaves no artifact at the final delivery location (second
component `false`), and does not remove the scratch directory (third
component `false`). -/
theorem executor_cleanup_amended
    (sc : StorageConfig) (mode : BackupMode) (now : LocalDateTime) (td : String)
    (sOk cOk tOk : Bool) (benv : BasicEnv) (penv : ParallelEnv)
    (store : Except Unit String) :
    ((execute sc mode now td sOk cOk tOk benv penv store).2.2 = true ↔
      ∃ loc, (execute sc mode now td sOk cOk tOk benv penv store).1 = Except.ok loc) ∧
    (sOk = true → ¬(sc.isLocal = true ∧ sc.path = none) →
      (sc.isLocal = true → cOk = true) → tOk = true →
      benv.spawnOk = true → benv.stdoutOk = true → benv.createFileOk = true →
      benv.copyOk = true → benv.encoderOk = true → benv.waitOk = true →
      benv.exitSuccess = false →
      execute sc BackupMode.Basic now td sOk cOk tOk benv penv store =
        (Except.error (ExecError.DumpFailed DumpError.ProducerFailed), false, false)) ∧
    (sOk = true → ¬(sc.isLocal = true ∧ sc.path = none) →
      (sc.isLocal = true → cOk = true) → tOk = true →
      penv.createBackupDirOk = true → penv.spawnOk = true → penv.waitOk = true →
      penv.exitSuccess = false →
      execute sc BackupMode.Parallel now td sOk cOk tOk benv penv store =
        (Except.error (ExecError.DumpFailed DumpError.ProducerFailed), false, false)) := by
  refine ⟨?_, ?_, ?_⟩
  · simp only [execute]
    by_cases h1 : (!sOk) = true
    · rw [if_pos h1]; simp
    · rw [if_neg h1]
      by_cases h2 : sc.isLocal = true ∧ sc.path = none
      · rw [if_pos h2]; simp
      · rw [if_neg h2]
        by_cases h3 : sc.isLocal = true ∧ (!cOk) = true
        · rw [if_pos h3]; simp
        · rw [if_neg h3]
          by_cases h4 : (!tOk) = true
          · rw [if_pos h4]; simp
          · rw [if_neg h4]
            exact deliverPhase_scratch_iff sc store _
  · intro h1 h2 h3 h4 h5 h6 h7 h8 h9 h10 h11
    have hc : ¬(sc.isLocal = true ∧ (!cOk) = true) := by
      intro ⟨hl, hcf⟩
      rw [h3 hl] at hcf
      simp at hcf
    have hd := dump_basic_producer_failed sc td (formatTimestamp now) benv
      h5 h6 h7 h8 h9 h10 h11
    simp only [execute]
    rw [if_neg (by simp [h1]), if_neg h2, if_neg hc, if_neg (by simp [h4])]
    show deliverPhase sc store (dump_basic sc td (formatTimestamp now) benv) = _
    rw [hd]
    rfl
  · intro h1 h2 h3 h4 h5 h6 h7 h8
    have hc : ¬(sc.isLocal = true ∧ (!cOk) = true) := by
      intro ⟨hl, hcf⟩
      rw [h3 hl] at hcf
      simp at hcf
    have hd := dump_parallel_producer_failed sc td (formatTimestamp now) penv
      h5 h6 h7 h8
    simp only [execute]
    rw [if_neg (by simp [h1]), if_neg h2, if_neg hc, if_neg (by simp [h4])]
    show deliverPhase sc store
      (match dump_parallel sc td (formatTimestamp now) penv with
        | (r, written, _) => (r, written)) = _
    rw [hd]
    rfl

/-- Witness for C1 (amended) at concrete inputs: a successful basic-mode
run does remove the scratch directory, and a parallel-mode producer
failure leaves everything as the amended claim states. -/
theorem executor_cleanup_amended_witness :
    ((execute ⟨"local", some "/var/backups", some "bk_", none, none, none, none, none, none⟩
        BackupMode.Basic ⟨2024, 1, 2, 3, 4, 5⟩ "/tmp/dbackup_x" true true true
        ⟨true, true, true, true, true, true, true, true⟩
        ⟨true, true, true, true, true, true, true⟩ (Except.ok "unused")).2.2 = true ↔
      ∃ loc, (execute ⟨"local", some "/var/backups", some "bk_", none, none, none, none, none, none⟩
        BackupMode.Basic ⟨2024, 1, 2, 3, 4, 5⟩ "/tmp/dbackup_x" true true true
        ⟨true, true, true, true, true, true, true, true⟩
        ⟨true, true, true, true, true, true, true⟩ (Except.ok "unused")).1 = Except.ok loc) ∧
    execute ⟨"s3", none, some "bk_", some "b", some "r", none, none, none, none⟩
      BackupMode.Parallel ⟨2024, 1, 2, 3, 4, 5⟩ "/tmp/dbackup_y" true true true
      ⟨true, true, true, true, true, true, true, true⟩
      ⟨true, true, true, false, true, true, true⟩ (Except.ok "unused") =
      (Except.error (ExecError.DumpFailed DumpError.ProducerFailed), false, false) :=
  ⟨(executor_cleanup_amended
      ⟨"local", some "/var/backups", some "bk_", none, none, none, none, none, none⟩
      BackupMode.Basic ⟨2024, 1, 2, 3, 4, 5⟩ "/tmp/dbackup_x" true true true
      ⟨true, true, true, true, true, true, true, true⟩
      ⟨true, true, true, true, true, true, true⟩ (Except.ok "unused")).1,
   (executor_cleanup_amended
      ⟨"s3", none, some "bk_", some "b", some "r", none, none, none, none⟩
      BackupMode.Parallel ⟨2024, 1, 2, 3, 4, 5⟩ "/tmp/dbackup_y" true true true
      ⟨true, true, true, true, true, true, true, true⟩
      ⟨true, true, true, false, true, true, true⟩ (Except.ok "unused")).2.2
      rfl (by decide) (by decide) rfl rfl rfl rfl rfl⟩

/-! ## C7 — intermediate directory cleanup in parallel mode -/

theorem dump_filenames (sc : StorageConfig) (td ts : String)
    (benv : BasicEnv) (penv : ParallelEnv) :
    (∀ p f, (dump_basic sc td ts benv).1 = Except.ok (p, f) →
      f = (StorageConfig.filename_prefix sc).getD "backup_" ++ ts ++ ".dump.gz") ∧
    (∀ p f, (dump_parallel sc td ts penv).1 = Except.ok (p, f) →
      f = (StorageConfig.filename_prefix sc).getD "backup_" ++ ts ++ ".dir.tar.gz") := by
  constructor
  · intro p f h
    unfold dump_basic at h
    repeat' split at h
    all_goals simp_all
  · intro p f h
    unfold dump_parallel at h
    repeat' split at h
    all_goals simp_all

/-- C8.  In both dump modes, a successful run's artifact filename is
exactly filename_prefix ++ timestamp ++ suffix, where the timestamp is
the run's local time formatted YYYYMMDD_HHMMSS (`formatTimestamp`, the
`%Y%m%d_%H%M%S` of src/postgres.rs line 27) and the suffix is
`.dump.gz` for Basic and `.dir.tar.gz` for Parallel mode. -/
theorem artifact_filename_format (sc : StorageConfig) (td : String)
    (t : LocalDateTime) (benv : BasicEnv) (penv : ParallelEnv) :
    (∀ p f, (dump_basic sc td (formatTimestamp t) benv).1 = Except.ok (p, f) →
      f = (StorageConfig.filename_prefix sc).getD "backup_" ++
        formatTimestamp t ++ ".dump.gz") ∧
    (∀ p f, (dump_parallel sc td (formatTimestamp t) penv).1 = Except.ok (p, f) →
      f = (StorageConfig.filename_prefix sc).getD "backup_" ++
        formatTimestamp t ++ ".dir.tar.gz") :=
  dump_filenames sc td (formatTimestamp t) benv penv

/-- Witness for C8 at a concrete input: the basic-mode run at local
time 2024-01-02 03:04:05 with prefix `bk_` names its artifact
`bk_20240102_030405.dump.gz`. -/
theorem artifact_filename_format_witness :
    ("bk_20240102_030405.dump.gz" : String) =
      (StorageConfig.filename_prefix
        ⟨"local", some "/b", some "bk_", none, none, none, none, none, none⟩).getD "backup_" ++
        formatTimestamp ⟨2024, 1, 2, 3, 4, 5⟩ ++ ".dump.gz" :=
  (artifact_filename_format
    ⟨"local", some "/b", some "bk_", none, none, none, none, none, none⟩
    "/tmp/d" ⟨2024, 1, 2, 3, 4, 5⟩
    ⟨true, true, true, true, true, true, true, true⟩
    ⟨true, true, true, true, true, true, true⟩).1
    "/b/bk_20240102_030405.dump.gz" "bk_20240102_030405.dump.gz" rfl

/-- C10.  When the resolved storage configuration has no
filename_prefix, both dump modes fall back to the default prefix
`backup_` (the `unwrap_or(&"backup_".to_string())` of src/postgres.rs
lines 80 and 173), so the artifact filename is still
prefix ++ timestamp ++ suffix. -/
theorem default_filename_prefix_applied (sc : StorageConfig) (td : String)
    (t : LocalDateTime) (benv : BasicEnv) (penv : ParallelEnv)
    (hfp : StorageConfig.filename_prefix sc = none) :
    (∀ p f, (dump_basic sc td (formatTimestamp t) benv).1 = Except.ok (p, f) →
      f = "backup_" ++ formatTimestamp t ++ ".dump.gz") ∧
    (∀ p f, (dump_parallel sc td (formatTimestamp t) penv).1 = Except.ok (p, f) →
      f = "backup_" ++ formatTimestamp t ++ ".dir.tar.gz") := by
  have h := dump_filenames sc td (formatTimestamp t) benv penv
  rw [hfp] at h
  exact h

/-- Witness for C10 at a concrete input: with no filename prefix
configured, the parallel-mode artifact is named
`backup_20240102_030405.dir.tar.gz`. -/
theorem default_filename_prefix_applied_witness :
    ("backup_20240102_030405.dir.tar.gz" : String) =
      "backup_" ++ formatTimestamp ⟨2024, 1, 2, 3, 4, 5⟩ ++ ".dir.tar.gz" :=
  (default_filename_prefix_applied
    ⟨"local", some "/b", none, none, none, none, none, none, none⟩
    "/tmp/d" ⟨2024, 1, 2, 3, 4, 5⟩
    ⟨true, true, true, true, true, true, true, true⟩
    ⟨true, true, true, true, true, true, true⟩ rfl).2
    "/b/backup_20240102_030405.dir.tar.gz" "backup_20240102_030405.dir.tar.gz" rfl

/-! ## C9 — no password in the producer argv -/

/-- C9.  The argument list built for the dump producer is a function of
the host, port, username and database only: two connection
configurations that differ only in the password (and possibly the
`uri` field, which is likewise never placed on the command line) yield
identical argv in both dump modes.  The password travels only through
the `PGPASSWORD` environment variable (`producerEnv`). -/
theorem producer_argv_password_free (c1 c2 : ConnectionConfig) (j : Nat)
    (d : String)
    (hh : c1.host = c2.host) (hp : c1.port = c2.port)
    (hu : c1.username = c2.username) (hd : c1.database = c2.database) :
    buildArgsBasic c1 = buildArgsBasic c2 ∧
    buildArgsParallel c1 j d = buildArgsParallel c2 j d ∧
    producerEnv c1 = [("PGPASSWORD", c1.password)] := by
  unfold buildArgsBasic buildArgsParallel producerEnv
  rw [hh, hp, hu, hd]
  exact ⟨rfl, rfl, rfl⟩

/-- Witness for C9 at concrete inputs: two configurations differing
only in the password build identical argv in both modes. -/
theorem producer_argv_password_free_witness :
    buildArgsBasic ⟨none, "db.example.com", 5432, "postgres", "hunter2", "prod"⟩ =
      buildArgsBasic ⟨none, "db.example.com", 5432, "postgres", "s3cret", "prod"⟩ ∧
    buildArgsParallel ⟨none, "db.example.com", 5432, "postgres", "hunter2", "prod"⟩ 4 "/tmp/d/bk" =
      buildArgsParallel ⟨none, "db.example.com", 5432, "postgres", "s3cret", "prod"⟩ 4 "/tmp/d/bk" ∧
    producerEnv ⟨none, "db.example.com", 5432, "postgres", "hunter2", "prod"⟩ =
      [("PGPASSWORD", "hunter2")] :=
  producer_argv_password_free
    ⟨none, "db.example.com", 5432, "postgres", "hunter2", "prod"⟩
    ⟨none, "db.example.com", 5432, "postgres", "s3cret", "prod"⟩
    4 "/tmp/d/bk" rfl rfl rfl rfl

/-! ## Retention pass characterizations -/

/-- Deletion predicate realized by the local retention loop: a
non-directory entry with a readable modification time strictly older
than the cutoff, whose removal succeeds. -/
def localDeletes (cutoff : Int) (e : FileEntry) : Bool :=
  !e.isDir &&
    (match e.modified with
      | some t => decide (t < cutoff) && e.removeOk
      | none => false)

theorem retentionLoop_spec (cutoff : Int) (entries : List FileEntry) :
    (retentionLoop cutoff entries).1 = entries.map (localDeletes cutoff) ∧
    (retentionLoop cutoff entries).2 =
      ((retentionLoop cutoff entries).1).count true := by
  induction entries with
  | nil => exact ⟨rfl, rfl⟩
  | cons e rest ih =>
    obtain ⟨ih1, ih2⟩ := ih
    rcases hr : retentionLoop cutoff rest with ⟨ds, n⟩
    rw [hr] at ih1 ih2
    simp only at ih1 ih2
    cases hdir : e.isDir
    · cases hmod : e.modified with
      | none => simp [retentionLoop, localDeletes, hr, hdir, hmod, ih1, ih2, List.count_cons]
      | some t =>
        by_cases ht : t < cutoff
        · cases hrm : e.removeOk
          · simp [retentionLoop, localDeletes, hr, hdir, hmod, ht, hrm, ih1, ih2, List.count_cons]
          · simp [retentionLoop, localDeletes, hr, hdir, hmod, ht, hrm, ih1, ih2, List.count_cons]
        · simp [retentionLoop, localDeletes, hr, hdir, hmod, ht, ih1, ih2, List.count_cons]
    · simp [retentionLoop, localDeletes, hr, hdir, ih1, ih2, List.count_cons]

/-- Deletion predicate realized by the S3 retention loop: a listed
object with a last-modified timestamp whose wrapped value is strictly
older than the cutoff and with a key, whose deletion succeeds. -/
def s3Deletes (cutoff : Int) (o : S3Object) : Bool :=
  match o.lastModified with
  | some t =>
    decide (Int.emod t (2 ^ 64) < cutoff) &&
      (match o.key with
        | some _ => o.deleteOk
        | none => false)
  | none => false

theorem s3ObjLoop_spec (cutoff : Int) (objs : List S3Object) :
    (s3ObjLoop cutoff objs).1 = objs.map (s3Deletes cutoff) ∧
    (s3ObjLoop cutoff objs).2 = ((s3ObjLoop cutoff objs).1).count true := by
  induction objs with
  | nil => exact ⟨rfl, rfl⟩
  | cons o rest ih =>
    obtain ⟨ih1, ih2⟩ := ih
    rcases hr : s3ObjLoop cutoff rest with ⟨ds, n⟩
    rw [hr] at ih1 ih2
    simp only at ih1 ih2
    cases hmod : o.lastModified with
    | none => simp [s3ObjLoop, s3Deletes, hr, hmod, ih1, ih2, List.count_cons]
    | some t =>
      by_cases ht : Int.emod t 18446744073709551616 < cutoff
      · cases hk : o.key with
        | none => simp [s3ObjLoop, s3Deletes, hr, hmod, ht, hk, ih1, ih2, List.count_cons]
        | some k =>
          cases hdel : o.deleteOk
          · simp [s3ObjLoop, s3Deletes, hr, hmod, ht, hk, hdel, ih1, ih2, List.count_cons]
          · simp [s3ObjLoop, s3Deletes, hr, hmod, ht, hk, hdel, ih1, ih2, List.count_cons]
      · simp [s3ObjLoop, s3Deletes, hr, hmod, ht, ih1, ih2, List.count_cons]

theorem s3PagesLoop_spec (cutoff : Int) (pages : List (List S3Object)) :
    (s3PagesLoop cutoff pages).1 = pages.flatten.map (s3Deletes cutoff) ∧
    (s3PagesLoop cutoff pages).2 =
      ((s3PagesLoop cutoff pages).1).count true := by
  induction pages with
  | nil => exact ⟨rfl, rfl⟩
  | cons page rest ih =>
    obtain ⟨ih1, ih2⟩ := ih
    rcases hr : s3PagesLoop cutoff rest with ⟨ds2, n2⟩
    rw [hr] at ih1 ih2
    simp only at ih1 ih2
    have hobj := s3ObjLoop_spec cutoff page
    rcases ho : s3ObjLoop cutoff page with ⟨ds, n⟩
    rw [ho] at hobj
    simp only at hobj
    simp [s3PagesLoop, hr, ho, ih1, ih2, hobj.1, hobj.2, List.count_append]

/-! ## C6 — local retention cleanup semantics -/

/-- C6.  With a valid retention string, the local retention pass
deletes exactly the non-directory direct children whose modification
time is strictly older than now - cutoff (an entry whose time equals
the cutoff, a directory, or an entry without a readable time is
preserved), an individual deletion failure only omits that entry (each
entry's flag depends on that entry alone), the pass reaches every
entry and returns `Ok`, and the logged count is the number of
successful deletions. -/
theorem local_retention_spec (r : List Char) (secs : Nat) (now : Int)
    (entries : List FileEntry)
    (hparse : parse_duration r = some secs) :
    (apply_local_retention true r now entries).deleted =
      entries.map (localDeletes (now - (secs : Int))) ∧
    (apply_local_retention true r now entries).result = some () ∧
    (apply_local_retention true r now entries).loggedCount =
      (entries.map (localDeletes (now - (secs : Int)))).count true := by
  have hs := retentionLoop_spec (now - (secs : Int)) entries
  rcases hr : retentionLoop (now - (secs : Int)) entries with ⟨ds, n⟩
  rw [hr] at hs
  simp only at hs
  unfold apply_local_retention
  rw [hparse]
  simp [hr, hs.1, hs.2]

/-- Witness for C6 at a concrete input: retention `1d`, now = 100000
(cutoff 13600), entries: an old file (deleted), a subdirectory
(skipped), a file exactly at the cutoff (preserved), an old file whose
removal fails (skipped, pass continues), a file without a readable
modification time (preserved). -/
theorem local_retention_spec_witness :
    (apply_local_retention true "1d".data 100000
      [⟨false, some 0, true⟩, ⟨true, some 0, true⟩, ⟨false, some 13600, true⟩,
       ⟨false, some 1, false⟩, ⟨false, none, true⟩]).deleted =
      [true, false, false, false, false] ∧
    (apply_local_retention true "1d".data 100000
      [⟨false, some 0, true⟩, ⟨true, some 0, true⟩, ⟨false, some 13600, true⟩,
       ⟨false, some 1, false⟩, ⟨false, none, true⟩]).result = some () ∧
    (apply_local_retention true "1d".data 100000
      [⟨false, some 0, true⟩, ⟨true, some 0, true⟩, ⟨false, some 13600, true⟩,
       ⟨false, some 1, false⟩, ⟨false, none, true⟩]).loggedCount = 1 := by
  have h := local_retention_spec "1d".data 86400 100000
    [⟨false, some 0, true⟩, ⟨true, some 0, true⟩, ⟨false, some 13600, true⟩,
     ⟨false, some 1, false⟩, ⟨false, none, true⟩] (by decide)
  exact ⟨h.1.trans (by decide), h.2.1, h.2.2.trans (by decide)⟩

/-! ## C2 — what retention enforcement returns -/

/-- Counterexample to C2.  The retention operations return `Result<()>`
(src/retention.rs line 45, src/storage.rs line 132), not the deleted
count: two passes whose successful-deletion counts differ (one vs
zero, and likewise for the S3 variant) return the same value
`Ok(())`, so the return value cannot be the count. -/
theorem retention_count_cex :
    (apply_local_retention true "1d".data 100000 [⟨false, some 0, true⟩]).result =
      (apply_local_retention true "1d".data 100000 []).result ∧
    (apply_local_retention true "1d".data 100000 [⟨false, some 0, true⟩]).loggedCount = 1 ∧
    (apply_local_retention true "1d".data 100000 []).loggedCount = 0 ∧
    (cleanup_old_backups 86400 100000 [[⟨some "k", some 0, true⟩]]).result =
      (cleanup_old_backups 86400 100000 []).result ∧
    (cleanup_old_backups 86400 100000 [[⟨some "k", some 0, true⟩]]).loggedCount = 1 ∧
    (cleanup_old_backups 86400 100000 []).loggedCount = 0 := by
  refine ⟨rfl, ?_, rfl, rfl, ?_, rfl⟩ <;> decide

/-- C2 (amended).  Both retention variants count exactly the items
they successfully delete — per-item deletion failures are excluded
from the count — but the count is only logged: the operations return
unit (`Ok(())`) on success, for the Local and the ObjectStore variant
alike. -/
theorem retention_count_amended (r : List Char) (secs : Nat) (now : Int)
    (entries : List FileEntry) (pages : List (List S3Object))
    (hparse : parse_duration r = some secs) :
    ((apply_local_retention true r now entries).result = some () ∧
     (apply_local_retention true r now entries).deleted =
       entries.map (localDeletes (now - (secs : Int))) ∧
     (apply_local_retention true r now entries).loggedCount =
       ((apply_local_retention true r now entries).deleted).count true) ∧
    ((cleanup_old_backups secs now pages).result = some () ∧
     (cleanup_old_backups secs now pages).deleted =
       pages.flatten.map (s3Deletes (now - (secs : Int))) ∧
     (cleanup_old_backups secs now pages).loggedCount =
       ((cleanup_old_backups secs now pages).deleted).count true) := by
  constructor
  · have hs := retentionLoop_spec (now - (secs : Int)) entries
    rcases hr : retentionLoop (now - (secs : Int)) entries with ⟨ds, n⟩
    rw [hr] at hs
    simp only at hs
    unfold apply_local_retention
    rw [hparse]
    simp [hr, hs.1, hs.2]
  · have hs := s3PagesLoop_spec (now - (secs : Int)) pages
    rcases hr : s3PagesLoop (now - (secs : Int)) pages with ⟨ds, n⟩
    rw [hr] at hs
    simp only at hs
    unfold cleanup_old_backups
    simp [hr, hs.1, hs.2]

/-- Witness for C2 (amended) at concrete inputs: a local pass deleting
one of two eligible files (the other's removal fails) and an S3 pass
over two pages. -/
theorem retention_count_amended_witness :
    ((apply_local_retention true "2w".data 2000000
        [⟨false, some 0, true⟩, ⟨false, some 1, false⟩]).result = some () ∧
     (apply_local_retention true "2w".data 2000000
        [⟨false, some 0, true⟩, ⟨false, some 1, false⟩]).deleted =
       [⟨false, some 0, true⟩, ⟨false, some 1, false⟩].map
         (localDeletes (2000000 - (1209600 : Nat))) ∧
     (apply_local_retention true "2w".data 2000000
        [⟨false, some 0, true⟩, ⟨false, some 1, false⟩]).loggedCount =
       ((apply_local_retention true "2w".data 2000000
          [⟨false, some 0, true⟩, ⟨false, some 1, false⟩]).deleted).count true) ∧
    ((cleanup_old_backups 1209600 2000000
        [[⟨some "a", some 0, true⟩], [⟨some "b", some 1, false⟩, ⟨none, some 2, true⟩]]).result = some () ∧
     (cleanup_old_backups 1209600 2000000
        [[⟨some "a", some 0, true⟩], [⟨some "b", some 1, false⟩, ⟨none, some 2, true⟩]]).deleted =
       [[⟨some "a", some 0, true⟩], [⟨some "b", some 1, false⟩, ⟨none, some 2, true⟩]].flatten.map
         (s3Deletes (2000000 - (1209600 : Nat))) ∧
     (cleanup_old_backups 1209600 2000000
        [[⟨some "a", some 0, true⟩], [⟨some "b", some 1, false⟩, ⟨none, some 2, true⟩]]).loggedCount =
       ((cleanup_old_backups 1209600 2000000
          [[⟨some "a", some 0, true⟩], [⟨some "b", some 1, false⟩, ⟨none, some 2, true⟩]]).deleted).count true) :=
  retention_count_amended "2w".data 1209600 2000000
    [⟨false, some 0, true⟩, ⟨false, some 1, false⟩]
    [[⟨some "a", some 0, true⟩], [⟨some "b", some 1, false⟩, ⟨none, some 2, true⟩]]
    (by decide)

end DBackup
